import Mathlib

/-!
Verification development for the harajuku booking/quoting backend
(Quote / AvailabilitySlot / Appointment / PaymentProof lifecycle).

The Go services and repositories are shallowly embedded as pure Lean
functions over explicit state records.  Fallible external collaborators
(the cache, the file store, injected database faults) are modelled by
explicit environment records carrying the outcome of each fallible call,
so every service function is a total function from an environment and a
state to a result together with the successor state.

Numeric conventions: Go uuid values are modelled as Nat (zero is the Go
zero uuid), time.Time as Int, float64 prices as Int (no claim in scope
depends on float rounding or NaN), and uint64 arithmetic as Nat with an
explicit modulus 2 ^ 64.
-/

namespace Harajuku

/-- Uuid values are abstracted as naturals; 0 plays the role of the Go zero uuid. -/
abbrev UUID := Nat

def zeroUUID : UUID := 0

/-- Error taxonomy of the domain package.  Modelled from the spec: the file
declaring the domain error constants is absent from src; the constructor
names follow the identifiers the services use (ErrDataNotFound,
ErrInternal, ErrConflictingData, ErrNoUpdatedData, ErrForbidenAppointment). -/
inductive Err where
  | dataNotFound
  | internal
  | conflictingData
  | noUpdatedData
  | forbiddenAppointment
  deriving DecidableEq, Repr

/-- domain.Quote (src/internal/core/domain/quote.go).  State is the Go string
enum; price (float64) is modelled as Int; time.Time as Int. -/
structure Quote where
  id : UUID
  typeOfServiceID : UUID
  clientID : UUID
  time : Int
  description : String
  state : String
  price : Int
  testRequired : Bool
  deriving DecidableEq, Repr

/-- QuoteState enum values (domain/quote.go). -/
def quotePending : String := "pending"

def quoteApproved : String := "approved"

def quoteRejected : String := "rejected"

def quoteRequiresProof : String := "requires_proof"

/-- AppointmentStatus enum values (src/unnamed/part_010). -/
def statusBooked : String := "booked"

def statusPending : String := "pending"

def statusCancelled : String := "cancelled"

def statusCompleted : String := "completed"

/-- domain.AvailabilitySlot (src/unnamed/part_010). -/
structure AvailabilitySlot where
  id : UUID
  adminID : UUID
  startTime : Int
  endTime : Int
  isBooked : Bool
  deriving DecidableEq, Repr

/-- domain.Appointment as used by the AppointmentService of
src/unnamed/part_008 (fields ID, UserID, SlotID, QuoteID, Status) and the
repository in src/internal/adapter/storage/postgres/repository/appointment.go. -/
structure Appointment where
  id : UUID
  userID : UUID
  slotID : UUID
  quoteID : UUID
  status : String
  deriving DecidableEq, Repr

/-- domain.QuoteImage (src/internal/core/domain/quote_images.go). -/
structure QuoteImage where
  id : UUID
  quoteID : UUID
  url : String
  deriving DecidableEq, Repr

/-- domain.PaymentProof (src/internal/core/domain/paymentProof.go). -/
structure PaymentProof where
  id : UUID
  quoteID : UUID
  url : String
  isReviewed : Bool
  deriving DecidableEq, Repr

/-! ## Scheduler state and repositories

The relational state seen by the Availability/Appointment scheduler:
the AvailabilitySlot, Quote and Appointment tables. -/

structure SchedDB where
  slots : List AvailabilitySlot
  quotes : List Quote
  appointments : List Appointment
  deriving DecidableEq, Repr

/-- AvailabilitySlotRepository.GetAvailabilitySlotByID (src/unnamed/part_014,
lines 50-72): SELECT ... WHERE id = ? LIMIT 1; pgx.ErrNoRows is mapped to
domain.ErrDataNotFound. -/
def getAvailabilitySlotByID (db : SchedDB) (id : UUID) : Except Err AvailabilitySlot :=
  match db.slots.find? (fun s => s.id == id) with
  | some s => .ok s
  | none => .error .dataNotFound

/-- QuoteRepository.GetQuoteByID (src/unnamed/part_017, lines 46-68):
SELECT ... WHERE id = ? LIMIT 1; pgx.ErrNoRows becomes ErrDataNotFound. -/
def getQuoteByID (db : SchedDB) (id : UUID) : Except Err Quote :=
  match db.quotes.find? (fun q => q.id == id) with
  | some q => .ok q
  | none => .error .dataNotFound

/-- Environment of one CreateAppointment call: the uuid minted by uuid.New()
and the outcome of each fallible external call.  A true flag makes the
corresponding call return an error (a generic database or cache fault). -/
structure SchedEnv where
  freshID : UUID
  slotUpdateFails : Bool
  insertFails : Bool
  cacheSetFails : Bool
  cacheDelListFails : Bool
  deriving DecidableEq, Repr

/-- AvailabilitySlotRepository.UpdateAvailabilitySlot (src/unnamed/part_014,
lines 195-215): UPDATE ... WHERE id = ? RETURNING *.  When no row matches,
the Scan of RETURNING yields an error; env.slotUpdateFails injects a
generic database fault. -/
def repoUpdateAvailabilitySlot (env : SchedEnv) (db : SchedDB) (slot : AvailabilitySlot) :
    Except Err SchedDB :=
  if env.slotUpdateFails then .error .internal
  else if db.slots.any (fun s => s.id == slot.id) then
    .ok { db with slots := db.slots.map (fun s => if s.id == slot.id then slot else s) }
  else .error .internal

/-- Values of the staged appointment_status_enum (the CREATE TABLE
"Appointment" statement staged in
src/internal/adapter/storage/awsS3/awsS3.go, lines 190-202): booked,
cancelled and completed only - the enum has no pending value. -/
def appointmentStatusEnum : List String := ["booked", "cancelled", "completed"]

/-- AppointmentRepository.CreateAppointment
(src/internal/adapter/storage/postgres/repository/appointment.go, lines
28-49) against the staged Appointment table (awsS3.go, lines 190-202).  A
status outside appointment_status_enum fails input coercion with a raw
postgres error before any constraint is checked; the repository returns
that error unmapped and the service collapses it to internal.  A duplicate
quoteId (declared UNIQUE) or id (primary key) raises the unique violation
23505, which the repository maps to domain.ErrConflictingData.
env.insertFails injects any other database fault. -/
def repoCreateAppointment (env : SchedEnv) (db : SchedDB) (a : Appointment) :
    Except Err (Appointment × SchedDB) :=
  if !(appointmentStatusEnum.contains a.status) then .error .internal
  else if db.appointments.any (fun b => b.quoteID == a.quoteID || b.id == a.id) then
    .error .conflictingData
  else if env.insertFails then .error .internal
  else .ok (a, { db with appointments := db.appointments ++ [a] })

/-- Shared tail of AppointmentService.CreateAppointment (src/unnamed/part_008,
lines 312-338): persist the appointment (propagating ErrConflictingData
verbatim, collapsing anything else to internal), then cache the created
appointment and invalidate the appointments list cache, failing the whole
call with internal when either cache call errors. -/
def createAppointmentPersist (env : SchedEnv) (db : SchedDB) (a : Appointment) :
    Except Err Appointment × SchedDB :=
  match repoCreateAppointment env db a with
  | .error e => (.error (if e == Err.conflictingData then e else .internal), db)
  | .ok (created, db1) =>
    if env.cacheSetFails then (.error .internal, db1)
    else if env.cacheDelListFails then (.error .internal, db1)
    else (.ok created, db1)

/-- AppointmentService.CreateAppointment, second version of
src/unnamed/part_008 (lines 258-339): mint a fresh id and a pending status,
validate the slot (NotFound / Conflict when booked), validate the quote
(NotFound; Conflict when its state reads booked, cancelled or completed;
Forbidden when pending or completed), auto-confirm when the quote state is
requires_proof by flipping the slot to booked and creating the appointment
with status booked, otherwise create it with status pending. -/
def createAppointment (env : SchedEnv) (db : SchedDB) (req : Appointment) :
    Except Err Appointment × SchedDB :=
  let a0 : Appointment := { req with id := env.freshID, status := statusPending }
  match getAvailabilitySlotByID db a0.slotID with
  | .error e => (.error (if e == Err.dataNotFound then e else .internal), db)
  | .ok slot =>
    if slot.isBooked then (.error .conflictingData, db)
    else
      match getQuoteByID db a0.quoteID with
      | .error e => (.error (if e == Err.dataNotFound then e else .internal), db)
      | .ok quote =>
        if quote.state == statusBooked || quote.state == statusCancelled ||
            quote.state == statusCompleted then
          (.error .conflictingData, db)
        else if quote.state == quotePending || quote.state == statusCompleted then
          (.error .forbiddenAppointment, db)
        else if quote.state == quoteRequiresProof then
          match repoUpdateAvailabilitySlot env db { slot with isBooked := true } with
          | .error _ => (.error .internal, db)
          | .ok db1 => createAppointmentPersist env db1 { a0 with status := statusBooked }
        else
          createAppointmentPersist env db { a0 with status := statusPending }

/-! ## Concrete fixtures used by witnesses and counterexamples -/

/-- A free slot used by concrete scenarios. -/
def slotFree : AvailabilitySlot :=
  { id := 1, adminID := 9, startTime := 0, endTime := 10, isBooked := false }

/-- A booked slot used by concrete scenarios. -/
def slotBusy : AvailabilitySlot :=
  { id := 1, adminID := 9, startTime := 0, endTime := 10, isBooked := true }

/-- A quote in a given state, used by concrete scenarios. -/
def quoteIn (st : String) : Quote :=
  { id := 2, typeOfServiceID := 3, clientID := 4, time := 5, description := "d",
    state := st, price := 100, testRequired := false }

/-- A well-behaved environment: fresh uuid 100, no injected faults. -/
def schedEnvOK : SchedEnv :=
  { freshID := 100, slotUpdateFails := false, insertFails := false,
    cacheSetFails := false, cacheDelListFails := false }

/-- The appointment request used by concrete scenarios (id and status are
overwritten by the service). -/
def reqApp : Appointment :=
  { id := 0, userID := 7, slotID := 1, quoteID := 2, status := "" }

/-- C2: CreateAppointment validates in order and returns the error taxonomy of
the spec: absent slot yields NotFound; a booked slot yields Conflict; an
absent quote yields NotFound; a quote whose state reads booked, cancelled or
completed yields Conflict; a pending quote yields Forbidden; and on every one
of these paths the database is left unchanged, so no appointment is
persisted. -/
theorem createAppointment_validation_taxonomy (env : SchedEnv) (db : SchedDB)
    (req : Appointment) :
    (db.slots.find? (fun s => s.id == req.slotID) = none →
      createAppointment env db req = (.error .dataNotFound, db))
  ∧ (∀ s, db.slots.find? (fun x => x.id == req.slotID) = some s → s.isBooked = true →
      createAppointment env db req = (.error .conflictingData, db))
  ∧ (∀ s, db.slots.find? (fun x => x.id == req.slotID) = some s → s.isBooked = false →
      db.quotes.find? (fun x => x.id == req.quoteID) = none →
      createAppointment env db req = (.error .dataNotFound, db))
  ∧ (∀ s q, db.slots.find? (fun x => x.id == req.slotID) = some s → s.isBooked = false →
      db.quotes.find? (fun x => x.id == req.quoteID) = some q →
      (q.state = "booked" ∨ q.state = "cancelled" ∨ q.state = "completed") →
      createAppointment env db req = (.error .conflictingData, db))
  ∧ (∀ s q, db.slots.find? (fun x => x.id == req.slotID) = some s → s.isBooked = false →
      db.quotes.find? (fun x => x.id == req.quoteID) = some q →
      q.state = "pending" →
      createAppointment env db req = (.error .forbiddenAppointment, db)) := by
  refine ⟨?_, ?_, ?_, ?_, ?_⟩
  · intro hs
    simp [createAppointment, getAvailabilitySlotByID, hs]
  · intro s hs hb
    simp [createAppointment, getAvailabilitySlotByID, hs, hb]
  · intro s hs hb hq
    simp [createAppointment, getAvailabilitySlotByID, getQuoteByID, hs, hb, hq]
  · intro s q hs hb hq hstate
    rcases hstate with h | h | h <;>
      simp [createAppointment, getAvailabilitySlotByID, getQuoteByID, hs, hb, hq, h,
        statusBooked, statusCancelled, statusCompleted]
  · intro s q hs hb hq hstate
    simp [createAppointment, getAvailabilitySlotByID, getQuoteByID, hs, hb, hq, hstate,
      statusBooked, statusCancelled, statusCompleted, quotePending]

/-- Witness for C2: each of the five validation branches exercised on a
concrete database. -/
theorem createAppointment_validation_taxonomy_witness :
    createAppointment schedEnvOK { slots := [], quotes := [], appointments := [] } reqApp
      = (.error .dataNotFound, { slots := [], quotes := [], appointments := [] })
  ∧ createAppointment schedEnvOK { slots := [slotBusy], quotes := [], appointments := [] } reqApp
      = (.error .conflictingData, { slots := [slotBusy], quotes := [], appointments := [] })
  ∧ createAppointment schedEnvOK { slots := [slotFree], quotes := [], appointments := [] } reqApp
      = (.error .dataNotFound, { slots := [slotFree], quotes := [], appointments := [] })
  ∧ createAppointment schedEnvOK
      { slots := [slotFree], quotes := [quoteIn "cancelled"], appointments := [] } reqApp
      = (.error .conflictingData,
         { slots := [slotFree], quotes := [quoteIn "cancelled"], appointments := [] })
  ∧ createAppointment schedEnvOK
      { slots := [slotFree], quotes := [quoteIn "pending"], appointments := [] } reqApp
      = (.error .forbiddenAppointment,
         { slots := [slotFree], quotes := [quoteIn "pending"], appointments := [] }) := by
  refine ⟨?_, ?_, ?_, ?_, ?_⟩
  · exact (createAppointment_validation_taxonomy schedEnvOK _ reqApp).1 (by decide)
  · exact (createAppointment_validation_taxonomy schedEnvOK _ reqApp).2.1 slotBusy
      (by decide) (by decide)
  · exact (createAppointment_validation_taxonomy schedEnvOK _ reqApp).2.2.1 slotFree
      (by decide) (by decide) (by decide)
  · exact (createAppointment_validation_taxonomy schedEnvOK _ reqApp).2.2.2.1 slotFree
      (quoteIn "cancelled") (by decide) (by decide) (by decide) (Or.inr (Or.inl (by decide)))
  · exact (createAppointment_validation_taxonomy schedEnvOK _ reqApp).2.2.2.2 slotFree
      (quoteIn "pending") (by decide) (by decide) (by decide) (by decide)

/-- An appointment already referencing quote 2, used by the C1 and C3
scenarios. -/
def appForQuote2 : Appointment :=
  { id := 50, userID := 6, slotID := 77, quoteID := 2, status := "booked" }

/-- Database for the C1 counterexample: a free slot, a quote in state
requires_proof, and an existing appointment already referencing that quote
(so that the appointment insert fails with a uniqueness conflict). -/
def dbAutoConfirm : SchedDB :=
  { slots := [slotFree], quotes := [quoteIn "requires_proof"],
    appointments := [appForQuote2] }

/-- C1 counterexample: the auto-confirm path is not atomic.  On dbAutoConfirm
the slot update is executed first and persists, then the appointment insert
fails with Conflict; the call returns the error, yet the slot remains
booked (slotBusy) with no appointment row added, contradicting the claim
that if the appointment insert fails after the slot update the slot must
not remain booked. -/
theorem createAppointment_autoConfirm_not_atomic :
    (createAppointment schedEnvOK dbAutoConfirm reqApp).1 = .error .conflictingData
  ∧ (createAppointment schedEnvOK dbAutoConfirm reqApp).2.slots = [slotBusy]
  ∧ (createAppointment schedEnvOK dbAutoConfirm reqApp).2.appointments
      = dbAutoConfirm.appointments :=
  ⟨rfl, rfl, rfl⟩

/-- C1 (amended): against a free slot and a quote in state requires_proof,
CreateAppointment books: when the appointment insert and the cache calls
succeed, the appointment is persisted with status booked and the slot is
flipped to isBooked = true; when the slot update fails the call aborts with
no appointment written; but the two writes are not atomic: when the
appointment insert fails after the slot update, the slot stays flipped and
the error is returned (no rollback, no compensation). -/
theorem createAppointment_autoConfirm (env : SchedEnv) (db : SchedDB) (req : Appointment)
    (s : AvailabilitySlot) (q : Quote)
    (hs : db.slots.find? (fun x => x.id == req.slotID) = some s)
    (hfree : s.isBooked = false)
    (hq : db.quotes.find? (fun x => x.id == req.quoteID) = some q)
    (hstate : q.state = "requires_proof") :
    (env.slotUpdateFails = false →
      db.appointments.any (fun b => b.quoteID == req.quoteID || b.id == env.freshID) = false →
      env.insertFails = false → env.cacheSetFails = false → env.cacheDelListFails = false →
      createAppointment env db req =
        (.ok { req with id := env.freshID, status := "booked" },
         { db with
             slots := db.slots.map
               (fun x => if x.id == s.id then { s with isBooked := true } else x),
             appointments := db.appointments ++
               [{ req with id := env.freshID, status := "booked" }] }))
  ∧ (env.slotUpdateFails = true →
      createAppointment env db req = (.error .internal, db))
  ∧ (env.slotUpdateFails = false →
      db.appointments.any (fun b => b.quoteID == req.quoteID || b.id == env.freshID) = true →
      createAppointment env db req =
        (.error .conflictingData,
         { db with
             slots := db.slots.map
               (fun x => if x.id == s.id then { s with isBooked := true } else x) })) := by
  have hmem : s ∈ db.slots := List.mem_of_find?_eq_some hs
  have hany : db.slots.any (fun x => x.id == s.id) = true := by
    rw [List.any_eq_true]
    exact ⟨s, hmem, by simp⟩
  refine ⟨?_, ?_, ?_⟩
  · intro hupd hnoc hins hcs hcd
    simp [createAppointment, getAvailabilitySlotByID, getQuoteByID,
      repoUpdateAvailabilitySlot, repoCreateAppointment, createAppointmentPersist,
      appointmentStatusEnum,
      hs, hfree, hq, hstate, hupd, hany, hnoc, hins, hcs, hcd,
      statusBooked, statusCancelled, statusCompleted, statusPending,
      quotePending, quoteRequiresProof]
  · intro hupd
    simp [createAppointment, getAvailabilitySlotByID, getQuoteByID,
      repoUpdateAvailabilitySlot,
      hs, hfree, hq, hstate, hupd,
      statusBooked, statusCancelled, statusCompleted, statusPending,
      quotePending, quoteRequiresProof]
  · intro hupd hconf
    simp [createAppointment, getAvailabilitySlotByID, getQuoteByID,
      repoUpdateAvailabilitySlot, repoCreateAppointment, createAppointmentPersist,
      appointmentStatusEnum,
      hs, hfree, hq, hstate, hupd, hany, hconf,
      statusBooked, statusCancelled, statusCompleted, statusPending,
      quotePending, quoteRequiresProof]

/-- Witness for the amended C1: the booking succeeds on a clean database, a
failing slot update aborts the call with nothing persisted, and the
non-atomic insert-failure path is exhibited on dbAutoConfirm. -/
theorem createAppointment_autoConfirm_witness :
    createAppointment schedEnvOK
      { slots := [slotFree], quotes := [quoteIn "requires_proof"], appointments := [] } reqApp
      = (.ok { reqApp with id := 100, status := "booked" },
         { slots := [slotBusy], quotes := [quoteIn "requires_proof"],
           appointments := [{ reqApp with id := 100, status := "booked" }] })
  ∧ createAppointment { schedEnvOK with slotUpdateFails := true }
      { slots := [slotFree], quotes := [quoteIn "requires_proof"], appointments := [] } reqApp
      = (.error .internal,
         { slots := [slotFree], quotes := [quoteIn "requires_proof"], appointments := [] })
  ∧ createAppointment schedEnvOK dbAutoConfirm reqApp
      = (.error .conflictingData,
         { slots := [slotBusy], quotes := [quoteIn "requires_proof"],
           appointments := [appForQuote2] }) := by
  refine ⟨?_, ?_, ?_⟩
  · have h := (createAppointment_autoConfirm schedEnvOK
      { slots := [slotFree], quotes := [quoteIn "requires_proof"], appointments := [] }
      reqApp slotFree (quoteIn "requires_proof")
      (by decide) (by decide) (by decide) (by decide)).1
      rfl (by decide) rfl rfl rfl
    exact h.trans rfl
  · have h := (createAppointment_autoConfirm { schedEnvOK with slotUpdateFails := true }
      { slots := [slotFree], quotes := [quoteIn "requires_proof"], appointments := [] }
      reqApp slotFree (quoteIn "requires_proof")
      (by decide) (by decide) (by decide) (by decide)).2.1 rfl
    exact h.trans rfl
  · have h := (createAppointment_autoConfirm schedEnvOK dbAutoConfirm
      reqApp slotFree (quoteIn "requires_proof")
      (by decide) (by decide) (by decide) (by decide)).2.2 rfl (by decide)
    exact h.trans rfl

/-- C3: the quote reference of an appointment is unique in storage (the
staged Appointment table of awsS3.go lines 190-202 declares quoteId
UNIQUE).  For any insert that reaches the constraint check - its status
must be a value of the staged appointment_status_enum, which holds for the
booked status the auto-confirm path inserts - a duplicate quote reference
makes the repository surface ErrConflictingData, and CreateAppointment
propagates exactly that error to the caller with no second appointment
persisted. -/
theorem appointment_quote_unique (env : SchedEnv) (db : SchedDB) :
    (∀ a, appointmentStatusEnum.contains a.status = true →
      db.appointments.any (fun b => b.quoteID == a.quoteID || b.id == a.id) = true →
      repoCreateAppointment env db a = .error .conflictingData)
  ∧ (∀ req s q, db.slots.find? (fun x => x.id == req.slotID) = some s →
      s.isBooked = false →
      db.quotes.find? (fun x => x.id == req.quoteID) = some q →
      q.state = "requires_proof" →
      env.slotUpdateFails = false →
      db.appointments.any (fun b => b.quoteID == req.quoteID) = true →
      (createAppointment env db req).1 = .error .conflictingData
      ∧ (createAppointment env db req).2.appointments = db.appointments) := by
  constructor
  · intro a hst hconf
    have hst2 : a.status ∈ appointmentStatusEnum := by simpa using hst
    simp [repoCreateAppointment, hst2, hconf]
  · intro req s q hs hfree hq hstate hupd hdup
    have hmem : s ∈ db.slots := List.mem_of_find?_eq_some hs
    have hany : db.slots.any (fun x => x.id == s.id) = true := by
      rw [List.any_eq_true]
      exact ⟨s, hmem, by simp⟩
    have hconf : db.appointments.any
        (fun b => b.quoteID == req.quoteID || b.id == env.freshID) = true := by
      rw [List.any_eq_true] at hdup ⊢
      obtain ⟨b, hb, hpred⟩ := hdup
      exact ⟨b, hb, by simp_all⟩
    simp [createAppointment, getAvailabilitySlotByID, getQuoteByID,
      repoUpdateAvailabilitySlot, repoCreateAppointment, createAppointmentPersist,
      appointmentStatusEnum,
      hs, hfree, hq, hstate, hupd, hany, hconf,
      statusBooked, statusCancelled, statusCompleted, statusPending,
      quotePending, quoteRequiresProof]

/-- Witness for C3: the repository-level conflict on a status-booked insert
with a duplicate quote reference, and the end-to-end propagation through the
auto-confirm path on dbAutoConfirm, where the second appointment for quote 2
fails with Conflict and the appointments table is unchanged. -/
theorem appointment_quote_unique_witness :
    repoCreateAppointment schedEnvOK dbAutoConfirm
      { reqApp with id := 100, status := "booked" }
      = .error .conflictingData
  ∧ (createAppointment schedEnvOK dbAutoConfirm reqApp).1 = .error .conflictingData
  ∧ (createAppointment schedEnvOK dbAutoConfirm reqApp).2.appointments
      = [appForQuote2] := by
  have h := appointment_quote_unique schedEnvOK dbAutoConfirm
  have h2 := h.2 reqApp slotFree (quoteIn "requires_proof")
    (by decide) (by decide) (by decide) rfl rfl (by decide)
  exact ⟨h.1 { reqApp with id := 100, status := "booked" } (by decide) (by decide),
    h2.1, h2.2.trans rfl⟩

/-- C10 counterexample: against a free slot and a rejected quote the state
checks pass, but no appointment is created with status pending: the service
inserts status pending, which is not a value of the staged
appointment_status_enum (awsS3.go lines 190-202), so the insert fails at
input coercion before any constraint check and CreateAppointment returns
internal with the database unchanged, contradicting the claim that the
appointment is created with status pending. -/
theorem createAppointment_rejected_insert_fails :
    createAppointment schedEnvOK
      { slots := [slotFree], quotes := [quoteIn "rejected"], appointments := [] } reqApp
      = (.error .internal,
         { slots := [slotFree], quotes := [quoteIn "rejected"], appointments := [] }) :=
  rfl

/-- C10 (amended): a quote in state rejected passes every state check of
CreateAppointment (only the literal values booked, cancelled, completed and
pending are matched by the two guards, so the request is not rejected on
quote state: the error is neither Conflict nor Forbidden); the service then
attempts the insert with status pending, which the staged
appointment_status_enum (booked, cancelled, completed) rejects at input
coercion, so the call returns internal regardless of the environment, no
appointment is persisted and the slot stays free (the database is returned
unchanged). -/
theorem createAppointment_rejected_returns_internal (env : SchedEnv) (db : SchedDB)
    (req : Appointment) (s : AvailabilitySlot) (q : Quote)
    (hs : db.slots.find? (fun x => x.id == req.slotID) = some s)
    (hfree : s.isBooked = false)
    (hq : db.quotes.find? (fun x => x.id == req.quoteID) = some q)
    (hstate : q.state = "rejected") :
    createAppointment env db req = (.error .internal, db) := by
  simp [createAppointment, getAvailabilitySlotByID, getQuoteByID,
    repoCreateAppointment, createAppointmentPersist, appointmentStatusEnum,
    hs, hfree, hq, hstate,
    statusBooked, statusCancelled, statusCompleted, statusPending,
    quotePending, quoteRequiresProof]

/-- Witness for the amended C10: a rejected quote on a concrete database
yields internal with the database unchanged, even under an environment
whose insert fault flag is set (the enum coercion fails first). -/
theorem createAppointment_rejected_returns_internal_witness :
    createAppointment { schedEnvOK with freshID := 101, insertFails := true }
      { slots := [slotFree], quotes := [quoteIn "rejected"], appointments := [] } reqApp
      = (.error .internal,
         { slots := [slotFree], quotes := [quoteIn "rejected"], appointments := [] }) := by
  have h := createAppointment_rejected_returns_internal
    { schedEnvOK with freshID := 101, insertFails := true }
    { slots := [slotFree], quotes := [quoteIn "rejected"], appointments := [] }
    reqApp slotFree (quoteIn "rejected") (by decide) (by decide) (by decide) rfl
  exact h.trans rfl

/-! ## Availability slot deletion (service src/unnamed/part_006 lines 178-197,
repository src/unnamed/part_014 lines 218-233) -/

/-- Environment of one DeleteAvailabilitySlot call: whether the cache delete
errors. -/
structure SlotDelEnv where
  cacheDelFails : Bool
  deriving DecidableEq, Repr

/-- AvailabilitySlotRepository.DeleteAvailabilitySlot (src/unnamed/part_014,
lines 218-233): an unconditional DELETE ... WHERE id = ?; deleting zero rows
is not an error and no isBooked condition appears in the query. -/
def repoDeleteAvailabilitySlot (db : List AvailabilitySlot) (id : UUID) :
    List AvailabilitySlot :=
  db.filter (fun s => s.id != id)

/-- AvailabilitySlotService.DeleteAvailabilitySlot (src/unnamed/part_006,
lines 178-197): fetch the slot (NotFound when absent), delete the cache key
(internal error aborts before the repository delete), then delete the row.
No check of isBooked appears anywhere on this path. -/
def deleteAvailabilitySlot (env : SlotDelEnv) (db : List AvailabilitySlot) (id : UUID) :
    Except Err Unit × List AvailabilitySlot :=
  match db.find? (fun s => s.id == id) with
  | none => (.error .dataNotFound, db)
  | some _ =>
    if env.cacheDelFails then (.error .internal, db)
    else (.ok (), repoDeleteAvailabilitySlot db id)

/-- C7 counterexample: a slot with isBooked = true is deleted without
complaint; the call succeeds and the slot row is gone from storage,
contradicting the claim that deletion of a booked slot is refused and the
row remains. -/
theorem deleteAvailabilitySlot_removes_booked :
    slotBusy.isBooked = true
  ∧ deleteAvailabilitySlot { cacheDelFails := false } [slotBusy] 1 = (.ok (), []) :=
  ⟨rfl, rfl⟩

/-- C7 (amended): DeleteAvailabilitySlot deletes any existing slot regardless
of its isBooked flag (the only slot-related failure is NotFound when the id
does not resolve); no booked-slot guard exists in the service or the
repository. -/
theorem deleteAvailabilitySlot_unconditional (env : SlotDelEnv)
    (db : List AvailabilitySlot) (id : UUID) :
    (db.find? (fun s => s.id == id) = none →
      deleteAvailabilitySlot env db id = (.error .dataNotFound, db))
  ∧ (∀ s, db.find? (fun x => x.id == id) = some s → env.cacheDelFails = false →
      deleteAvailabilitySlot env db id = (.ok (), db.filter (fun x => x.id != id))) := by
  constructor
  · intro h
    simp [deleteAvailabilitySlot, h]
  · intro s hs hc
    simp [deleteAvailabilitySlot, repoDeleteAvailabilitySlot, hs, hc]

/-- Witness for the amended C7: the booked slot is deleted, and an unknown id
yields NotFound. -/
theorem deleteAvailabilitySlot_unconditional_witness :
    deleteAvailabilitySlot { cacheDelFails := false } [slotBusy] 1 = (.ok (), [])
  ∧ deleteAvailabilitySlot { cacheDelFails := false } [slotBusy] 2
      = (.error .dataNotFound, [slotBusy]) := by
  constructor
  · have h := (deleteAvailabilitySlot_unconditional { cacheDelFails := false }
      [slotBusy] 1).2 slotBusy (by decide) rfl
    exact h.trans rfl
  · exact (deleteAvailabilitySlot_unconditional { cacheDelFails := false }
      [slotBusy] 2).1 (by decide)

/-! ## List pagination (src/unnamed/part_014 lines 89-94 and
src/internal/adapter/storage/postgres/repository/appointment.go lines
116-121) -/

/-- Modulus of Go uint64 arithmetic. -/
def u64Mod : Nat := 2 ^ 64

/-- Go uint64 subtraction. -/
def u64sub (a b : Nat) : Nat := (a + (u64Mod - b % u64Mod)) % u64Mod

/-- Go uint64 multiplication. -/
def u64mul (a b : Nat) : Nat := (a * b) % u64Mod

/-- Pagination clause of AvailabilitySlotRepository.ListAvailabilitySlots
(src/unnamed/part_014, lines 89-94): when filter.Limit > 0 the query gets
Limit(limit) and Offset((skip - 1) * limit) in uint64 arithmetic; otherwise
neither a limit nor an offset is applied. -/
def listAvailabilitySlotsPageClause (skip limit : Nat) : Option (Nat × Nat) :=
  if limit > 0 then some (limit, u64mul (u64sub skip 1) limit) else none

/-- Pagination clause of AppointmentRepository.ListAppointments
(appointment.go, lines 116-121): the same uint64 formula. -/
def listAppointmentsPageClause (skip limit : Nat) : Option (Nat × Nat) :=
  if limit > 0 then some (limit, u64mul (u64sub skip 1) limit) else none

/-- C9: for Limit > 0 both list queries apply offset (Skip - 1) * Limit in
unsigned 64-bit arithmetic, where Skip = 0 wraps to (2 ^ 64 - Limit) mod
2 ^ 64; for Limit = 0 no limit and no offset are applied. -/
theorem pagination_offset_formula (skip limit : Nat)
    (hs : skip < 2 ^ 64) (hl : limit < 2 ^ 64) :
    (0 < limit → 1 ≤ skip →
      listAvailabilitySlotsPageClause skip limit
        = some (limit, ((skip - 1) * limit) % 2 ^ 64)
      ∧ listAppointmentsPageClause skip limit
        = some (limit, ((skip - 1) * limit) % 2 ^ 64))
  ∧ (0 < limit → skip = 0 →
      listAvailabilitySlotsPageClause skip limit
        = some (limit, (2 ^ 64 - limit) % 2 ^ 64)
      ∧ listAppointmentsPageClause skip limit
        = some (limit, (2 ^ 64 - limit) % 2 ^ 64))
  ∧ (limit = 0 →
      listAvailabilitySlotsPageClause skip limit = none
      ∧ listAppointmentsPageClause skip limit = none) := by
  refine ⟨?_, ?_, ?_⟩
  · intro hpos hskip
    have hsub : u64sub skip 1 = skip - 1 := by
      simp only [u64sub, u64Mod]
      omega
    constructor <;>
      simp [listAvailabilitySlotsPageClause, listAppointmentsPageClause, hpos, hsub,
        u64mul, u64Mod]
  · intro hpos hskip
    subst hskip
    obtain ⟨l, rfl⟩ : ∃ l, limit = l + 1 := ⟨limit - 1, by omega⟩
    have hsub : u64sub 0 1 = 2 ^ 64 - 1 := by
      simp only [u64sub, u64Mod]
      omega
    have hmul : u64mul (2 ^ 64 - 1) (l + 1) = (2 ^ 64 - (l + 1)) % 2 ^ 64 := by
      simp only [u64mul, u64Mod]
      have hsplit : (2 ^ 64 - 1) * (l + 1) = (2 ^ 64 - (l + 1)) + l * 2 ^ 64 := by
        omega
      rw [hsplit, Nat.add_mul_mod_self_right]
    have hoff : u64mul (u64sub 0 1) (l + 1) = (2 ^ 64 - (l + 1)) % 2 ^ 64 := by
      rw [hsub, hmul]
    constructor <;>
      · simp only [listAvailabilitySlotsPageClause, listAppointmentsPageClause]
        rw [if_pos hpos, hoff]
  · intro h0
    subst h0
    constructor <;>
      simp [listAvailabilitySlotsPageClause, listAppointmentsPageClause]

/-- Witness for C9: page 3 with limit 10 gives offset 20; page 0 with limit 7
wraps to 2 ^ 64 - 7; limit 0 disables pagination. -/
theorem pagination_offset_formula_witness :
    listAvailabilitySlotsPageClause 3 10 = some (10, 20)
  ∧ listAppointmentsPageClause 0 7 = some (7, 2 ^ 64 - 7)
  ∧ listAvailabilitySlotsPageClause 5 0 = none := by
  refine ⟨?_, ?_, ?_⟩
  · have h := ((pagination_offset_formula 3 10 (by norm_num) (by norm_num)).1
      (by norm_num) (by norm_num)).1
    rw [h]
    norm_num
  · have h := ((pagination_offset_formula 0 7 (by norm_num) (by norm_num)).2.1
      (by norm_num) rfl).2
    rw [h]
    norm_num
  · exact ((pagination_offset_formula 5 0 (by norm_num) (by norm_num)).2.2 rfl).1

/-! ## Quote creation (QuoteService.CreateQuote, src/unnamed/part_004 lines
58-153) -/

/-- The Quote and QuoteImages tables. -/
structure QuoteDB where
  quotes : List Quote
  images : List QuoteImage
  deriving DecidableEq, Repr

/-- State seen by CreateQuote: the database, the file store (list of stored
paths; awsS3.Save returns the file name as the path), and the existing
TypeOfService and user ids. -/
structure QuoteWorld where
  db : QuoteDB
  files : List String
  typeOfServices : List UUID
  users : List UUID
  deriving DecidableEq, Repr

/-- Environment of one CreateQuote call: the uuid minted for the image row and
the outcome of each fallible external call. -/
structure CreateQuoteEnv where
  freshImageID : UUID
  saveFails : Bool
  quoteInsertFails : Bool
  imageInsertFails : Bool
  deleteFileFails : Bool
  cacheDelQuotesFails : Bool
  cacheDelImagesFails : Bool
  deriving DecidableEq, Repr

/-- QuoteService.CreateQuote (src/unnamed/part_004, lines 58-153): validate the
type-of-service and client ids (any lookup failure becomes NotFound), save
the file before touching the database (fail fast with internal), then run
one transaction inserting the quote row and the quote-image row - db.WithTx
(src/internal/adapter/storage/postgres/quote_test.go, lines 201-218) rolls
the database back when the callback errors.  On transaction failure the
saved file is deleted as compensation (a failed delete is itself internal
and leaves the file).  On commit, the quote cache write is best-effort but
a failing list-cache invalidation returns internal (rows stay committed);
the admin notification email is best-effort and has no observable effect
here. -/
def createQuote (env : CreateQuoteEnv) (w : QuoteWorld) (quote : Quote)
    (fileName : String) : Except Err Quote × QuoteWorld :=
  if !(w.typeOfServices.contains quote.typeOfServiceID) then (.error .dataNotFound, w)
  else if !(w.users.contains quote.clientID) then (.error .dataNotFound, w)
  else if env.saveFails then (.error .internal, w)
  else
    let path := fileName
    let w1 := { w with files := w.files ++ [path] }
    let tx : Except Err QuoteDB :=
      if env.quoteInsertFails then .error .internal
      else
        let dbq := { w1.db with quotes := w1.db.quotes ++ [quote] }
        if env.imageInsertFails then .error .internal
        else .ok { dbq with images := dbq.images ++
          [{ id := env.freshImageID, quoteID := quote.id, url := path }] }
    match tx with
    | .error _ =>
      if env.deleteFileFails then (.error .internal, w1)
      else (.error .internal, { w1 with files := w1.files.filter (fun p => p != path) })
    | .ok db2 =>
      let w2 := { w1 with db := db2 }
      if env.cacheDelQuotesFails then (.error .internal, w2)
      else if env.cacheDelImagesFails then (.error .internal, w2)
      else (.ok quote, w2)

/-- C4: the file is saved before any database write (a file-store failure
aborts with internal and leaves everything untouched); the quote and
quote-image rows are inserted in one transaction, and when any insert in
that transaction fails the quote row does not persist and the saved file is
deleted again (provided the compensating delete itself succeeds); on a
clean run both rows and the file persist. -/
theorem createQuote_transactional (env : CreateQuoteEnv) (w : QuoteWorld)
    (quote : Quote) (fileName : String)
    (hts : w.typeOfServices.contains quote.typeOfServiceID = true)
    (hus : w.users.contains quote.clientID = true) :
    (env.saveFails = true →
      createQuote env w quote fileName = (.error .internal, w))
  ∧ (env.saveFails = false →
      (env.quoteInsertFails = true ∨ env.imageInsertFails = true) →
      env.deleteFileFails = false →
      fileName ∉ w.files →
      (createQuote env w quote fileName).1 = .error .internal
      ∧ (createQuote env w quote fileName).2.db = w.db
      ∧ (createQuote env w quote fileName).2.files = w.files)
  ∧ (env.saveFails = false → env.quoteInsertFails = false →
      env.imageInsertFails = false → env.cacheDelQuotesFails = false →
      env.cacheDelImagesFails = false →
      createQuote env w quote fileName =
        (.ok quote,
         { w with
             db := { quotes := w.db.quotes ++ [quote],
                     images := w.db.images ++
                       [{ id := env.freshImageID, quoteID := quote.id, url := fileName }] },
             files := w.files ++ [fileName] })) := by
  have hts2 : quote.typeOfServiceID ∈ w.typeOfServices := by simpa using hts
  have hus2 : quote.clientID ∈ w.users := by simpa using hus
  refine ⟨?_, ?_, ?_⟩
  · intro hsave
    simp [createQuote, hts2, hus2, hsave]
  · intro hsave hfail hdel hnotin
    have hfilter : (w.files ++ [fileName]).filter (fun p => p != fileName) = w.files := by
      rw [List.filter_append]
      have h1 : [fileName].filter (fun p => p != fileName) = [] := by simp
      have h2 : w.files.filter (fun p => p != fileName) = w.files := by
        rw [List.filter_eq_self]
        intro a ha
        simp only [bne_iff_ne, ne_eq, decide_eq_true_eq]
        intro hEq
        exact hnotin (hEq ▸ ha)
      rw [h1, h2, List.append_nil]
    rcases hfail with h | h <;>
      refine ⟨?_, ?_, ?_⟩ <;>
        simp [createQuote, hts2, hus2, hsave, h, hdel, hfilter]
  · intro hsave hq hi hc1 hc2
    simp [createQuote, hts2, hus2, hsave, hq, hi, hc1, hc2]

/-- A stored quote used by quote-side scenarios (state approved,
testRequired false, matching what the Quote table can hold). -/
def quoteStored : Quote := quoteIn "approved"

/-- Environment for CreateQuote with no faults. -/
def cqEnvOK : CreateQuoteEnv :=
  { freshImageID := 42, saveFails := false, quoteInsertFails := false,
    imageInsertFails := false, deleteFileFails := false,
    cacheDelQuotesFails := false, cacheDelImagesFails := false }

/-- Starting world for the CreateQuote scenarios. -/
def cqWorld : QuoteWorld :=
  { db := { quotes := [], images := [] }, files := ["old.png"],
    typeOfServices := [3], users := [4] }

/-- Witness for C4: the fail-fast save failure, the image-insert rollback with
file compensation, and the clean committed run, all on concrete worlds. -/
theorem createQuote_transactional_witness :
    createQuote { cqEnvOK with saveFails := true } cqWorld quoteStored "q.png"
      = (.error .internal, cqWorld)
  ∧ (createQuote { cqEnvOK with imageInsertFails := true } cqWorld quoteStored "q.png").1
      = .error .internal
  ∧ (createQuote { cqEnvOK with imageInsertFails := true } cqWorld quoteStored "q.png").2.db
      = cqWorld.db
  ∧ (createQuote { cqEnvOK with imageInsertFails := true } cqWorld quoteStored "q.png").2.files
      = ["old.png"]
  ∧ createQuote cqEnvOK cqWorld quoteStored "q.png"
      = (.ok quoteStored,
         { db := { quotes := [quoteStored],
                   images := [{ id := 42, quoteID := 2, url := "q.png" }] },
           files := ["old.png", "q.png"], typeOfServices := [3], users := [4] }) := by
  have h := createQuote_transactional { cqEnvOK with saveFails := true } cqWorld
    quoteStored "q.png" (by decide) (by decide)
  have h2 := createQuote_transactional { cqEnvOK with imageInsertFails := true } cqWorld
    quoteStored "q.png" (by decide) (by decide)
  have h3 := createQuote_transactional cqEnvOK cqWorld quoteStored "q.png"
    (by decide) (by decide)
  have hb := h2.2.1 rfl (Or.inr rfl) rfl (by decide)
  refine ⟨(h.1 rfl).trans rfl, hb.1, hb.2.1.trans rfl, hb.2.2.trans rfl, ?_⟩
  exact (h3.2.2 rfl rfl rfl rfl rfl).trans rfl

/-! ## Quote update (QuoteService.UpdateQuote, src/unnamed/part_004 lines
256-348) -/

/-- Cache operations issued by a service call, logged in order. -/
inductive CacheOp where
  | setKey (key : String)
  | delKey (key : String)
  | delMatching (pat : String)
  deriving DecidableEq, Repr

/-- Modelled from the spec: util.GenerateCacheKey yields "<entity>:<id>" (the
util package is absent from src). -/
def cacheKey (entity : String) (id : UUID) : String := entity ++ ":" ++ toString id

/-- The emptyData predicate of UpdateQuote (src/unnamed/part_004, lines
269-274): every submitted field compared is zero.  The TestRequired flag is
not part of the comparison in the source. -/
def quoteEmptyData (q : Quote) : Bool :=
  q.typeOfServiceID == zeroUUID && q.clientID == zeroUUID && q.time == 0 &&
    q.description == "" && q.state == "" && q.price == 0

/-- The sameData predicate of UpdateQuote (src/unnamed/part_004, lines
276-281): type-of-service, client, time, description, state and price are
compared; the TestRequired flag is not. -/
def quoteSameData (existing q : Quote) : Bool :=
  existing.typeOfServiceID == q.typeOfServiceID && existing.clientID == q.clientID &&
    existing.time == q.time && existing.description == q.description &&
    existing.state == q.state && existing.price == q.price

/-- State seen by UpdateQuote: the Quote table, the user ids, and the log of
cache operations issued so far. -/
structure UpdateQuoteWorld where
  quotes : List Quote
  users : List UUID
  ops : List CacheOp
  deriving DecidableEq, Repr

/-- Environment of one UpdateQuote call. -/
structure UpdateQuoteEnv where
  updateFails : Bool
  cacheDelFails : Bool
  cacheSetFails : Bool
  cacheDelQuotesFails : Bool
  cacheDelImagesFails : Bool
  deriving DecidableEq, Repr

/-- QuoteService.UpdateQuote (src/unnamed/part_004, lines 256-348): fetch the
existing quote (NotFound when absent), return NoUpdatedData when the
payload is all-zero or equal to the existing row on the compared fields,
otherwise persist the update; when the new state is requires_proof the
client is looked up (NotFound propagates) and emailed best-effort; then the
single-entity cache key is deleted and rewritten and both list-cache
prefixes are invalidated, any cache failure returning internal. -/
def updateQuote (env : UpdateQuoteEnv) (w : UpdateQuoteWorld) (quote : Quote) :
    Except Err Quote × UpdateQuoteWorld :=
  match w.quotes.find? (fun q => q.id == quote.id) with
  | none => (.error .dataNotFound, w)
  | some existingQuote =>
    if quoteEmptyData quote || quoteSameData existingQuote quote then
      (.error .noUpdatedData, w)
    else if env.updateFails then (.error .internal, w)
    else
      let w1 := { w with
        quotes := w.quotes.map (fun q => if q.id == quote.id then quote else q) }
      if quote.state == quoteRequiresProof && !(w1.users.contains quote.clientID) then
        (.error .dataNotFound, w1)
      else
        let w2 := { w1 with ops := w1.ops ++ [CacheOp.delKey (cacheKey "quote" quote.id)] }
        if env.cacheDelFails then (.error .internal, w2)
        else
          let w3 := { w2 with ops := w2.ops ++ [CacheOp.setKey (cacheKey "quote" quote.id)] }
          if env.cacheSetFails then (.error .internal, w3)
          else
            let w4 := { w3 with ops := w3.ops ++ [CacheOp.delMatching "quotes:*"] }
            if env.cacheDelQuotesFails then (.error .internal, w4)
            else
              let w5 := { w4 with ops := w4.ops ++ [CacheOp.delMatching "quoteImages:*"] }
              if env.cacheDelImagesFails then (.error .internal, w5)
              else (.ok quote, w5)

/-- Payload differing from quoteStored only in the test-required flag. -/
def quotePayloadTR : Quote := { quoteStored with testRequired := true }

/-- World for the UpdateQuote scenarios. -/
def uqWorld : UpdateQuoteWorld := { quotes := [quoteStored], users := [4], ops := [] }

/-- Fault-free environment for UpdateQuote. -/
def uqEnvOK : UpdateQuoteEnv :=
  { updateFails := false, cacheDelFails := false, cacheSetFails := false,
    cacheDelQuotesFails := false, cacheDelImagesFails := false }

/-- C5 counterexample: a payload equal to the stored quote on every compared
field but with the opposite test-required flag (and plainly not all-empty)
still yields NoUpdatedData, contradicting the claim that the no-op test
covers the test-required flag: the source compares type-of-service, client,
time, description, state and price only. -/
theorem updateQuote_ignores_testRequired :
    quotePayloadTR.testRequired ≠ quoteStored.testRequired
  ∧ quotePayloadTR.description ≠ ""
  ∧ updateQuote uqEnvOK uqWorld quotePayloadTR = (.error .noUpdatedData, uqWorld) :=
  ⟨by decide, by decide, rfl⟩

/-- C5 (amended): given the quote exists, UpdateQuote returns NoUpdatedData
exactly when the payload is all-zero on the compared fields or agrees with
the stored quote on type-of-service, client, time, description, state and
price - the test-required flag is not part of either comparison - and on
that path the state is returned unchanged: no repository write and no cache
operation happens. -/
theorem updateQuote_noop_iff (env : UpdateQuoteEnv) (w : UpdateQuoteWorld)
    (quote existing : Quote)
    (hfind : w.quotes.find? (fun q => q.id == quote.id) = some existing) :
    ((updateQuote env w quote).1 = .error .noUpdatedData
      ↔ (quoteEmptyData quote || quoteSameData existing quote) = true)
  ∧ ((quoteEmptyData quote || quoteSameData existing quote) = true →
      (updateQuote env w quote).2 = w) := by
  constructor
  · by_cases hnoop : (quoteEmptyData quote || quoteSameData existing quote) = true
    · simp [updateQuote, hfind, hnoop]
    · simp only [Bool.not_eq_true] at hnoop
      simp only [updateQuote, hfind, hnoop, Bool.false_eq_true, iff_false]
      split_ifs <;> simp_all
  · intro hnoop
    simp [updateQuote, hfind, hnoop]

/-- Witness for the amended C5: a payload identical to the stored row on the
compared fields returns NoUpdatedData with the world unchanged, and a
payload with a changed description does not return NoUpdatedData. -/
theorem updateQuote_noop_iff_witness :
    updateQuote uqEnvOK uqWorld quotePayloadTR = (.error .noUpdatedData, uqWorld)
  ∧ (updateQuote uqEnvOK uqWorld { quoteStored with description := "other" }).1
      ≠ .error .noUpdatedData := by
  have h := updateQuote_noop_iff uqEnvOK uqWorld quotePayloadTR quoteStored (by decide)
  have h2 := updateQuote_noop_iff uqEnvOK uqWorld
    { quoteStored with description := "other" } quoteStored (by decide)
  constructor
  · have hres := h.1.mpr (by decide)
    have hst := h.2 (by decide)
    calc updateQuote uqEnvOK uqWorld quotePayloadTR
        = ((updateQuote uqEnvOK uqWorld quotePayloadTR).1,
           (updateQuote uqEnvOK uqWorld quotePayloadTR).2) := rfl
      _ = (.error .noUpdatedData, uqWorld) := by rw [hres, hst]
  · intro hbad
    have := h2.1.mp hbad
    exact absurd this (by decide)

/-! ## Payment proof creation (PaymentProofService.CreatePaymentProof,
src/unnamed/part_005 lines 44-104) -/

/-- State seen by CreatePaymentProof: the Quote and PaymentProof tables and the
file store. -/
structure ProofWorld where
  quotes : List Quote
  proofs : List PaymentProof
  files : List String
  deriving DecidableEq, Repr

/-- Environment of one CreatePaymentProof call. -/
structure ProofEnv where
  freshID : UUID
  saveFails : Bool
  insertFails : Bool
  deleteFileFails : Bool
  deriving DecidableEq, Repr

/-- PaymentProofRepository.GetPaymentProofByQuoteID (src/unnamed/part_020,
lines 83-112): SELECT ... WHERE quoteId = ? LIMIT 1; no rows yields a nil
proof with a nil error rather than ErrDataNotFound. -/
def getPaymentProofByQuoteID (proofs : List PaymentProof) (quoteID : UUID) :
    Option PaymentProof :=
  proofs.find? (fun p => p.quoteID == quoteID)

/-- PaymentProofService.CreatePaymentProof (src/unnamed/part_005, lines
44-104): any quote-lookup failure becomes NotFound; an existing proof for
the quote is Conflict; the file is saved first (fail fast with internal);
the proof row is inserted inside db.WithTx with a fresh id, the saved path
as url and isReviewed hard-set to false; on transaction failure the saved
file is deleted best-effort and internal is returned.  The trailing cache
population and list invalidation are best-effort in the source (their
errors are discarded), so they have no observable effect here. -/
def createPaymentProof (env : ProofEnv) (w : ProofWorld) (proof : PaymentProof)
    (fileName : String) : Except Err PaymentProof × ProofWorld :=
  if !(w.quotes.any (fun q => q.id == proof.quoteID)) then (.error .dataNotFound, w)
  else
    match getPaymentProofByQuoteID w.proofs proof.quoteID with
    | some _ => (.error .conflictingData, w)
    | none =>
      if env.saveFails then (.error .internal, w)
      else
        let path := fileName
        let w1 := { w with files := w.files ++ [path] }
        let p1 : PaymentProof :=
          { id := env.freshID, quoteID := proof.quoteID, url := path, isReviewed := false }
        if env.insertFails then
          (.error .internal,
           if env.deleteFileFails then w1
           else { w1 with files := w1.files.filter (fun q => q != path) })
        else (.ok p1, { w1 with proofs := w1.proofs ++ [p1] })

/-- C6: CreatePaymentProof fails NotFound when the quote is absent, Conflict
when a proof already exists for the quote (at most one proof per quote),
otherwise saves the file first and inserts the proof row transactionally
with isReviewed = false; a save failure aborts everything, and an insert
failure rolls the row back and deletes the saved file again. -/
theorem createPaymentProof_lifecycle (env : ProofEnv) (w : ProofWorld)
    (proof : PaymentProof) (fileName : String) :
    (w.quotes.any (fun q => q.id == proof.quoteID) = false →
      createPaymentProof env w proof fileName = (.error .dataNotFound, w))
  ∧ (∀ p0, w.quotes.any (fun q => q.id == proof.quoteID) = true →
      w.proofs.find? (fun p => p.quoteID == proof.quoteID) = some p0 →
      createPaymentProof env w proof fileName = (.error .conflictingData, w))
  ∧ (w.quotes.any (fun q => q.id == proof.quoteID) = true →
      w.proofs.find? (fun p => p.quoteID == proof.quoteID) = none →
      env.saveFails = true →
      createPaymentProof env w proof fileName = (.error .internal, w))
  ∧ (w.quotes.any (fun q => q.id == proof.quoteID) = true →
      w.proofs.find? (fun p => p.quoteID == proof.quoteID) = none →
      env.saveFails = false → env.insertFails = false →
      createPaymentProof env w proof fileName =
        (.ok { id := env.freshID, quoteID := proof.quoteID, url := fileName,
               isReviewed := false },
         { w with
             proofs := w.proofs ++
               [{ id := env.freshID, quoteID := proof.quoteID, url := fileName,
                  isReviewed := false }],
             files := w.files ++ [fileName] }))
  ∧ (w.quotes.any (fun q => q.id == proof.quoteID) = true →
      w.proofs.find? (fun p => p.quoteID == proof.quoteID) = none →
      env.saveFails = false → env.insertFails = true →
      env.deleteFileFails = false → fileName ∉ w.files →
      createPaymentProof env w proof fileName = (.error .internal, w)) := by
  refine ⟨?_, ?_, ?_, ?_, ?_⟩
  · intro hq
    simp [createPaymentProof, hq]
  · intro p0 hq hp
    simp [createPaymentProof, getPaymentProofByQuoteID, hq, hp]
  · intro hq hp hsave
    simp [createPaymentProof, getPaymentProofByQuoteID, hq, hp, hsave]
  · intro hq hp hsave hins
    simp [createPaymentProof, getPaymentProofByQuoteID, hq, hp, hsave, hins]
  · intro hq hp hsave hins hdel hnotin
    have hfilter : (w.files ++ [fileName]).filter (fun p => p != fileName) = w.files := by
      rw [List.filter_append]
      have h1 : [fileName].filter (fun p => p != fileName) = [] := by simp
      have h2 : w.files.filter (fun p => p != fileName) = w.files := by
        rw [List.filter_eq_self]
        intro a ha
        simp only [bne_iff_ne, ne_eq, decide_eq_true_eq]
        intro hEq
        exact hnotin (hEq ▸ ha)
      rw [h1, h2, List.append_nil]
    simp [createPaymentProof, getPaymentProofByQuoteID, hq, hp, hsave, hins, hdel, hfilter]

/-- An existing payment proof for quote 2, used by the C6 witness. -/
def proofForQuote2 : PaymentProof :=
  { id := 60, quoteID := 2, url := "p0.png", isReviewed := true }

/-- The proof request used by the C6 witness (id, url and isReviewed are
overwritten by the service). -/
def reqProof : PaymentProof := { id := 0, quoteID := 2, url := "", isReviewed := true }

/-- Fault-free environment for CreatePaymentProof, fresh id 70. -/
def ppEnvOK : ProofEnv :=
  { freshID := 70, saveFails := false, insertFails := false, deleteFileFails := false }

/-- Witness for C6: all five branches on concrete worlds - absent quote,
duplicate proof, save failure, clean run (isReviewed forced to false), and
insert failure with file compensation. -/
theorem createPaymentProof_lifecycle_witness :
    createPaymentProof ppEnvOK { quotes := [], proofs := [], files := [] } reqProof "p.png"
      = (.error .dataNotFound, { quotes := [], proofs := [], files := [] })
  ∧ createPaymentProof ppEnvOK
      { quotes := [quoteStored], proofs := [proofForQuote2], files := [] } reqProof "p.png"
      = (.error .conflictingData,
         { quotes := [quoteStored], proofs := [proofForQuote2], files := [] })
  ∧ createPaymentProof { ppEnvOK with saveFails := true }
      { quotes := [quoteStored], proofs := [], files := [] } reqProof "p.png"
      = (.error .internal, { quotes := [quoteStored], proofs := [], files := [] })
  ∧ createPaymentProof ppEnvOK
      { quotes := [quoteStored], proofs := [], files := [] } reqProof "p.png"
      = (.ok { id := 70, quoteID := 2, url := "p.png", isReviewed := false },
         { quotes := [quoteStored],
           proofs := [{ id := 70, quoteID := 2, url := "p.png", isReviewed := false }],
           files := ["p.png"] })
  ∧ createPaymentProof { ppEnvOK with insertFails := true }
      { quotes := [quoteStored], proofs := [], files := [] } reqProof "p.png"
      = (.error .internal, { quotes := [quoteStored], proofs := [], files := [] }) := by
  refine ⟨?_, ?_, ?_, ?_, ?_⟩
  · exact ((createPaymentProof_lifecycle ppEnvOK
      { quotes := [], proofs := [], files := [] } reqProof "p.png").1 (by decide)).trans rfl
  · exact ((createPaymentProof_lifecycle ppEnvOK
      { quotes := [quoteStored], proofs := [proofForQuote2], files := [] } reqProof
      "p.png").2.1 proofForQuote2 (by decide) (by decide)).trans rfl
  · exact ((createPaymentProof_lifecycle { ppEnvOK with saveFails := true }
      { quotes := [quoteStored], proofs := [], files := [] } reqProof "p.png").2.2.1
      (by decide) (by decide) rfl).trans rfl
  · exact ((createPaymentProof_lifecycle ppEnvOK
      { quotes := [quoteStored], proofs := [], files := [] } reqProof "p.png").2.2.2.1
      (by decide) (by decide) rfl rfl).trans rfl
  · exact ((createPaymentProof_lifecycle { ppEnvOK with insertFails := true }
      { quotes := [quoteStored], proofs := [], files := [] } reqProof "p.png").2.2.2.2
      (by decide) (by decide) rfl rfl rfl (by decide)).trans rfl

/-! ## Read-through gets and cache deserialization (QuoteService.GetQuote,
src/unnamed/part_004 lines 156-219; AvailabilitySlotService.GetAvailabilitySlot,
src/unnamed/part_006 lines 55-90; AppointmentService.GetAppointment,
src/unnamed/part_008 lines 342-377) -/

/-- Bytes held by the cache.  Modelled from the spec: util.Serialize and
util.Deserialize are absent from src; cached bytes either decode to a value
or are garbage on which deserialization fails. -/
inductive Bytes (α : Type) where
  | decodable (a : α)
  | garbage
  deriving DecidableEq, Repr

/-- Deserialization: garbage fails (the concrete error value is irrelevant,
every caller collapses it to internal). -/
def deserialize {α : Type} : Bytes α → Except Err α
  | .decodable a => .ok a
  | .garbage => .error .internal

/-- Environment of one GetAvailabilitySlot call: the cache lookup outcome
(none is a miss) and whether the repopulating cache write errors. -/
structure GetSlotEnv where
  cached : Option (Bytes AvailabilitySlot)
  cacheSetFails : Bool
  deriving DecidableEq, Repr

/-- AvailabilitySlotService.GetAvailabilitySlot (src/unnamed/part_006, lines
55-90): on a cache hit the bytes are deserialized and a deserialization
failure returns internal - there is no fallback to the repository; only a
cache miss reaches the repository (NotFound when absent), after which the
entity is re-cached (a failing cache write returns internal). -/
def getAvailabilitySlotService (env : GetSlotEnv) (slots : List AvailabilitySlot)
    (id : UUID) : Except Err AvailabilitySlot :=
  match env.cached with
  | some bs =>
    match deserialize bs with
    | .ok slot => .ok slot
    | .error _ => .error .internal
  | none =>
    match slots.find? (fun s => s.id == id) with
    | none => .error .dataNotFound
    | some slot => if env.cacheSetFails then .error .internal else .ok slot

/-- Environment of one GetAppointment call. -/
structure GetAppointmentEnv where
  cached : Option (Bytes Appointment)
  cacheSetFails : Bool
  deriving DecidableEq, Repr

/-- AppointmentService.GetAppointment (src/unnamed/part_008, lines 342-377):
identical shape to GetAvailabilitySlot - a deserialization failure on a
cache hit returns internal without consulting the repository. -/
def getAppointmentService (env : GetAppointmentEnv) (appointments : List Appointment)
    (id : UUID) : Except Err Appointment :=
  match env.cached with
  | some bs =>
    match deserialize bs with
    | .ok a => .ok a
    | .error _ => .error .internal
  | none =>
    match appointments.find? (fun a => a.id == id) with
    | none => .error .dataNotFound
    | some a => if env.cacheSetFails then .error .internal else .ok a

/-- Environment of one GetQuote call: cache lookup outcomes for the quote and
for its image list, and the two repopulating cache writes. -/
structure GetQuoteEnv where
  cachedQuote : Option (Bytes Quote)
  cachedImages : Option (Bytes (List QuoteImage))
  cacheSetQuoteFails : Bool
  cacheSetImagesFails : Bool
  deriving DecidableEq, Repr

/-- QuoteService.GetQuote (src/unnamed/part_004, lines 156-219): the quote and
its image list are cached under separate keys; a deserialization failure on
either cache hit returns internal without falling back; only when at least
one of the two is a miss does the service fetch the quote (NotFound when
absent) and its images (first page of ten, per GetQuoteImages with skip 1
and limit 10) from storage, re-caching both. -/
def getQuoteService (env : GetQuoteEnv) (db : QuoteDB) (id : UUID) :
    Except Err (Quote × List QuoteImage) :=
  let quoteStep : Except Err (Option Quote) :=
    match env.cachedQuote with
    | some bs =>
      match deserialize bs with
      | .ok q => .ok (some q)
      | .error _ => .error .internal
    | none => .ok none
  match quoteStep with
  | .error e => .error e
  | .ok qOpt =>
    let imagesStep : Except Err (Option (List QuoteImage)) :=
      match env.cachedImages with
      | some bs =>
        match deserialize bs with
        | .ok imgs => .ok (some imgs)
        | .error _ => .error .internal
      | none => .ok none
    match imagesStep with
    | .error e => .error e
    | .ok imgsOpt =>
      match qOpt, imgsOpt with
      | some q, some imgs => .ok (q, imgs)
      | _, _ =>
        match db.quotes.find? (fun q => q.id == id) with
        | none => .error .dataNotFound
        | some q =>
          if env.cacheSetQuoteFails then .error .internal
          else
            let imgs := (db.images.filter (fun im => im.quoteID == q.id)).take 10
            if env.cacheSetImagesFails then .error .internal
            else .ok (q, imgs)

/-- An image row for quote 2, used by the C8 scenarios. -/
def imageForQuote2 : QuoteImage := { id := 80, quoteID := 2, url := "q.png" }

/-- An appointment row used by the C8 scenarios. -/
def appStored : Appointment :=
  { id := 90, userID := 7, slotID := 1, quoteID := 2, status := "pending" }

/-- C8 counterexample: for all three Get operations, when the cache returns
garbage bytes the call returns internal even though the entity is present
in storage - it does not fall back to the repository, contradicting the
claim of a transparent fallback on deserialization failure. -/
theorem cache_garbage_returns_internal :
    getQuoteService
      { cachedQuote := some .garbage, cachedImages := none,
        cacheSetQuoteFails := false, cacheSetImagesFails := false }
      { quotes := [quoteStored], images := [imageForQuote2] } 2
      = .error .internal
  ∧ getAvailabilitySlotService
      { cached := some .garbage, cacheSetFails := false } [slotFree] 1
      = .error .internal
  ∧ getAppointmentService
      { cached := some .garbage, cacheSetFails := false } [appStored] 90
      = .error .internal
  ∧ [slotFree].find? (fun s => s.id == 1) = some slotFree
  ∧ [appStored].find? (fun a => a.id == 90) = some appStored :=
  ⟨rfl, rfl, rfl, rfl, rfl⟩

/-- C8 (amended): a cache miss falls back transparently to the repository and
returns the stored entity (re-caching it), for GetQuote, GetAvailabilitySlot
and GetAppointment alike; but a cache hit whose bytes fail to deserialize
returns internal with no fallback. -/
theorem get_fallback_on_miss (db : QuoteDB) (slots : List AvailabilitySlot)
    (appointments : List Appointment) (id : UUID) :
    (∀ q, db.quotes.find? (fun x => x.id == id) = some q →
      getQuoteService
        { cachedQuote := none, cachedImages := none,
          cacheSetQuoteFails := false, cacheSetImagesFails := false } db id
        = .ok (q, (db.images.filter (fun im => im.quoteID == q.id)).take 10))
  ∧ (∀ s, slots.find? (fun x => x.id == id) = some s →
      getAvailabilitySlotService { cached := none, cacheSetFails := false } slots id
        = .ok s)
  ∧ (∀ a, appointments.find? (fun x => x.id == id) = some a →
      getAppointmentService { cached := none, cacheSetFails := false } appointments id
        = .ok a)
  ∧ getQuoteService
      { cachedQuote := some .garbage, cachedImages := none,
        cacheSetQuoteFails := false, cacheSetImagesFails := false } db id
      = .error .internal
  ∧ getAvailabilitySlotService { cached := some .garbage, cacheSetFails := false }
      slots id = .error .internal
  ∧ getAppointmentService { cached := some .garbage, cacheSetFails := false }
      appointments id = .error .internal := by
  refine ⟨?_, ?_, ?_, rfl, rfl, rfl⟩
  · intro q hq
    simp [getQuoteService, deserialize, hq]
  · intro s hs
    simp [getAvailabilitySlotService, deserialize, hs]
  · intro a ha
    simp [getAppointmentService, deserialize, ha]

/-- Witness for the amended C8: cache misses on concrete storage return the
stored quote (with its image page), slot and appointment. -/
theorem get_fallback_on_miss_witness :
    getQuoteService
      { cachedQuote := none, cachedImages := none,
        cacheSetQuoteFails := false, cacheSetImagesFails := false }
      { quotes := [quoteStored], images := [imageForQuote2] } 2
      = .ok (quoteStored, [imageForQuote2])
  ∧ getAvailabilitySlotService { cached := none, cacheSetFails := false } [slotFree] 1
      = .ok slotFree
  ∧ getAppointmentService { cached := none, cacheSetFails := false } [appStored] 90
      = .ok appStored := by
  have h := get_fallback_on_miss
    { quotes := [quoteStored], images := [imageForQuote2] } [slotFree] [appStored] 2
  have h2 := get_fallback_on_miss
    { quotes := [quoteStored], images := [imageForQuote2] } [slotFree] [appStored] 1
  have h3 := get_fallback_on_miss
    { quotes := [quoteStored], images := [imageForQuote2] } [slotFree] [appStored] 90
  exact ⟨(h.1 quoteStored (by decide)).trans rfl,
    (h2.2.1 slotFree (by decide)).trans rfl,
    (h3.2.2.1 appStored (by decide)).trans rfl⟩

end Harajuku
